import Mathlib

/-!
Shallow embedding of the race-position simulation service (src/app.py).

Modelling conventions:
- Python floats (monotonic clock readings, weights) are modelled as exact
  rationals; `TICK_SECONDS = 5.0` becomes `(5 : ℚ)`.
- The `random` module is modelled by an entropy record supplying one value
  `u ∈ [0, 1)` per draw; `random.choices(pop, weights)` becomes cumulative
  weight selection at `u * total` (the CPython bisect algorithm), and
  `random.randint(lo, hi)` becomes `lo + ⌊u * (hi + 1 - lo)⌋`.
- The two `time.monotonic()` calls in `perform_lazy_tick_if_needed` (line 150
  and line 193) are two separate inputs `nowM` and `now2`.
- The external Supabase fetch is an input of type `Except String (List String)`.
- A Python function that may raise returns `SimState × Option String`: the
  state after the call (a raise leaves state untouched, since in this code all
  mutation happens after the checks) and the raised error message, if any.
-/

namespace FastF1Sim

/-- Monotonic clock readings, modelled as exact rationals. -/
abbrev Time := ℚ

/-- TICK_SECONDS = 5.0 (src/app.py line 26). -/
def TICK_SECONDS : Time := 5

/-- The module-level mutable state of src/app.py (lines 41-46):
`_sim_on`, `_grid`, `_last_tick_monotonic`, `_tick_count`,
`_last_grid_loaded_at_utc`. -/
structure SimState where
  simOn : Bool
  grid : List String
  lastTickMonotonic : Time
  tickCount : Nat
  lastGridLoadedAtUtc : Option String
  deriving Repr, DecidableEq

/-- Entropy driving the random draws of one tick: `uSwaps` drives the swap
count draw, `uIdx k` drives the index draw of the k-th swap. -/
structure TickEntropy where
  uSwaps : ℚ
  uIdx : Nat → ℚ

/-- Every entropy value lies in [0, 1), as `random.random()` guarantees. -/
def ValidEntropy (e : TickEntropy) : Prop :=
  0 ≤ e.uSwaps ∧ e.uSwaps < 1 ∧ ∀ k, 0 ≤ e.uIdx k ∧ e.uIdx k < 1

/-- Cumulative-weight selection: return the first element whose cumulative
weight exceeds the target, subtracting as we go. This is the CPython
`random.choices` bisect over cumulative weights, with the target already
multiplied out. The mismatched-length clauses never arise in use. -/
def weightedChoiceAux {α : Type} : List α → List ℚ → ℚ → Option α
  | [], _, _ => none
  | a :: _, [], _ => some a
  | a :: pop, w :: ws, t => if t < w then some a else weightedChoiceAux pop ws (t - w)

/-- `random.choices(pop, weights=ws, k=1)[0]` driven by entropy `u ∈ [0,1)`. -/
def weightedChoice {α : Type} (pop : List α) (ws : List ℚ) (u : ℚ) : Option α :=
  weightedChoiceAux pop ws (u * ws.sum)

/-- `random.randint(lo, hi)` (both ends inclusive) driven by entropy
`u ∈ [0,1)`. -/
def randint (lo hi : Nat) (u : ℚ) : Nat :=
  lo + (⌊u * ((hi + 1 - lo : Nat) : ℚ)⌋).toNat

/-- The literal weight list of line 160: `[0.25, 0.55, 0.20]`. -/
def swapWeights : List ℚ := [1/4, 11/20, 1/5]

/-- Line 160: `swaps = random.choices([0, 1, 2], weights=[0.25, 0.55, 0.20], k=1)[0]`. -/
def drawSwapCount (u : ℚ) : Nat :=
  (weightedChoice [0, 1, 2] swapWeights u).getD 0

/-- Lines 178-186: weight of candidate index `idx` for grid length `n`:
`mid = (n - 1) / 2.0`, `dist = abs(idx - mid)`, `w = max(0.2, 1.5 - dist / mid)`,
then `w *= 0.5` when `idx <= 1`. -/
def idxWeight (n idx : Nat) : ℚ :=
  let mid : ℚ := ((n : ℚ) - 1) / 2
  let dist : ℚ := |(idx : ℚ) - mid|
  let w : ℚ := max (1/5) (3/2 - dist / mid)
  if idx ≤ 1 then w * (1/2) else w

/-- Lines 172-188: choose the swap index `i`. For `n <= 3` a uniform
`random.randint(0, n - 2)`; otherwise a weighted choice over
`list(range(1, n - 1))` = `[1, ..., n - 2]` followed by `i = min(i, n - 2)`. -/
def pickSwapIndex (n : Nat) (u : ℚ) : Nat :=
  if n ≤ 3 then
    randint 0 (n - 2) u
  else
    let candidates := List.range' 1 (n - 2)
    let ws := candidates.map (idxWeight n)
    let i := (weightedChoice candidates ws u).getD 1
    min i (n - 2)

/-- Line 190: `_grid[i], _grid[i + 1] = _grid[i + 1], _grid[i]` — the adjacent
transposition at positions i and i+1 (identity when i+1 is out of range; in
the code i is always in range, see the bounds part of the permutation
theorem). -/
def swapAdj {α : Type} : List α → Nat → List α
  | a :: b :: t, 0 => b :: a :: t
  | a :: t, i + 1 => a :: swapAdj t i
  | l, _ => l

/-- The `for _ in range(swaps)` loop of lines 167-190: `n` is the grid length
read once before the loop (line 163); draw k uses entropy `uIdx k`. -/
def applySwaps (n : Nat) (uIdx : Nat → ℚ) (s : Nat) (g : List String) : List String :=
  (List.range s).foldl (fun acc k => swapAdj acc (pickSwapIndex n (uIdx k))) g

/-- First locked section of `perform_lazy_tick_if_needed` (lines 146-156):
returns the state after this section and whether execution falls through to
the tick itself. -/
def tickCheckPhase (st : SimState) (nowM : Time) : SimState × Bool :=
  if !st.simOn then (st, false)
  else if st.lastTickMonotonic = 0 then ({ st with lastTickMonotonic := nowM }, false)
  else if nowM - st.lastTickMonotonic < TICK_SECONDS then (st, false)
  else (st, true)

/-- The swap-count draw outside the lock (line 160) plus the second locked
section (lines 162-193): early return when `n < 2`, else apply the swaps,
increment `_tick_count` and set `_last_tick_monotonic` to a fresh
`time.monotonic()` reading `now2` (line 193). -/
def tickApplyPhase (st : SimState) (now2 : Time) (e : TickEntropy) : SimState :=
  let swaps := drawSwapCount e.uSwaps
  let n := st.grid.length
  if n < 2 then st
  else
    { st with
      grid := applySwaps n e.uIdx swaps st.grid
      tickCount := st.tickCount + 1
      lastTickMonotonic := now2 }

/-- `perform_lazy_tick_if_needed` (lines 139-193). `nowM` is the
`time.monotonic()` of line 150, `now2` the one of line 193; under a single
uninterrupted call the two phases run back to back. -/
def perform_lazy_tick_if_needed (st : SimState) (nowM now2 : Time) (e : TickEntropy) :
    SimState :=
  let r := tickCheckPhase st nowM
  if r.2 then tickApplyPhase r.1 now2 e else r.1

/-- Result of the external roster fetch
(`fetch_active_driver_codes_from_supabase`, lines 80-119): an error message,
or the ordered de-duplicated code list. -/
abbrev FetchResult := Except String (List String)

/-- `ensure_grid_loaded` (lines 122-136). The fetch result and the wall-clock
iso string are inputs; returns the state after the call and the raised error,
if any. -/
def ensure_grid_loaded (st : SimState) (force_reload : Bool) (fetch : FetchResult)
    (nowIso : String) : SimState × Option String :=
  if force_reload || st.grid.length < 8 then
    match fetch with
    | .error e => (st, some e)
    | .ok codes =>
      if codes.length < 8 then (st, some "InsufficientRosterSize")
      else ({ st with grid := codes, lastGridLoadedAtUtc := some nowIso }, none)
  else (st, none)

/-- One reload attempt: the forced flag and what the provider would return. -/
structure ReloadAttempt where
  force : Bool
  fetch : FetchResult
  nowIso : String

/-- A sequence of `ensure_grid_loaded` calls, threading the state. -/
def runReloads (st : SimState) : List ReloadAttempt → SimState
  | [] => st
  | a :: rest => runReloads (ensure_grid_loaded st a.force a.fetch a.nowIso).1 rest

/-- `sim_start` (lines 268-282) after the admin check:
`ensure_grid_loaded(force_reload=False)`; a load failure propagates with
`_sim_on` untouched; on success set `_sim_on = True`. -/
def sim_start (st : SimState) (fetch : FetchResult) (nowIso : String) :
    SimState × Option String :=
  match ensure_grid_loaded st false fetch nowIso with
  | (st1, some e) => (st1, some e)
  | (st1, none) => ({ st1 with simOn := true }, none)

/-- `sim_stop` (lines 285-291) after the admin check: set `_sim_on = False`. -/
def sim_stop (st : SimState) : SimState :=
  { st with simOn := false }

/-- `sim_reset` (lines 294-308) after the admin check:
`ensure_grid_loaded(force_reload=True)`; a failure propagates untouched; on
success zero `_tick_count` and reset `_last_tick_monotonic` to the 0.0
sentinel. -/
def sim_reset (st : SimState) (fetch : FetchResult) (nowIso : String) :
    SimState × Option String :=
  match ensure_grid_loaded st true fetch nowIso with
  | (st1, some e) => (st1, some e)
  | (st1, none) => ({ st1 with tickCount := 0, lastTickMonotonic := 0 }, none)

/-- Swap-count selection exactly as the specification words it: a draw from
{0, 1, 2} with weights {0.25, 0.55, 0.20}, to be compared with the
code-derived `drawSwapCount`. -/
def specSwapCount (u : ℚ) : Nat :=
  (weightedChoice [0, 1, 2] [25/100, 55/100, 20/100] u).getD 0

/-- Candidate weight exactly as the specification words it: `mid = (n-1)/2`,
`dist = |idx - mid|`, `w = max(0.2, 1.5 - dist/mid)`, halved when `idx <= 1`;
to be compared with the code-derived `idxWeight`. -/
def specIdxWeight (n idx : Nat) : ℚ :=
  let mid : ℚ := ((n : ℚ) - 1) / 2
  let dist : ℚ := |(idx : ℚ) - mid|
  let w : ℚ := max (2/10) (15/10 - dist / mid)
  if idx ≤ 1 then w / 2 else w

/-- Index selection exactly as the specification words it: uniform on
[0, n-2] when n ≤ 3, else a weighted sample over candidates [1, n-2]
(no clamping step); to be compared with the code-derived `pickSwapIndex`. -/
def specPickIndex (n : Nat) (u : ℚ) : Nat :=
  if n ≤ 3 then randint 0 (n - 2) u
  else
    let candidates := List.range' 1 (n - 2)
    (weightedChoice candidates (candidates.map (specIdxWeight n)) u).getD 1

/-- The swap loop as the specification words it, built from `specPickIndex`. -/
def specApplySwaps (n : Nat) (uIdx : Nat → ℚ) (s : Nat) (g : List String) : List String :=
  (List.range s).foldl (fun acc k => swapAdj acc (specPickIndex n (uIdx k))) g

/-- Python truthiness of `Optional[str]`: `None` and the empty string are
falsy. -/
def strFalsy : Option String → Bool
  | none => true
  | some s => s = ""

/-- `_require_admin_token` (lines 68-77): the HTTP status code it raises, or
`none` when the check passes. `adminToken` is the configured `ADMIN_TOKEN`
(empty string when not configured, the `os.getenv` default). -/
def require_admin_token (adminToken : String) (xAdminToken : Option String) :
    Option Nat :=
  if adminToken = "" then some 500
  else if strFalsy xAdminToken then some 401
  else if xAdminToken.getD "" = adminToken then none
  else some 403

/-- A ten-entry grid used as a concrete loaded roster. -/
def gridTen : List String :=
  ["ALB", "BOT", "GAS", "HAM", "LEC", "NOR", "PER", "RUS", "SAI", "VER"]

/-- Entropy whose every draw is 0: the swap-count draw yields 0 swaps. -/
def entropy0 : TickEntropy := ⟨0, fun _ => 0⟩

/-- Entropy whose swap-count draw yields 1 swap and whose index draws are 0. -/
def entropyOne : TickEntropy := ⟨1/2, fun _ => 0⟩

/-- A running simulation that has already ticked: ten-entry grid, last tick at
monotonic time 3, two ticks so far. -/
def stRunning : SimState := ⟨true, gridTen, 3, 2, none⟩

/-- A running simulation with a one-entry grid that is tick-eligible. -/
def stSolo : SimState := ⟨true, ["ALB"], 1, 5, none⟩

/-- A running simulation right after its baseline was recorded at monotonic
time 1 and before any tick happened. -/
def stTick : SimState := ⟨true, gridTen, 1, 0, none⟩

/-- The pristine process-start state: off, empty grid, zero counters. -/
def stFresh : SimState := ⟨false, [], 0, 0, none⟩

/-- A fetched roster that is too short (three entries). -/
def shortCodes : List String := ["HAM", "VER", "LEC"]

/-! ## Helper lemmas -/

/-- Cumulative-weight selection only ever returns a member of the
population. -/
theorem weightedChoiceAux_mem {α : Type} :
    ∀ (pop : List α) (ws : List ℚ) (t : ℚ) (a : α),
      weightedChoiceAux pop ws t = some a → a ∈ pop
  | [], _, _, _, h => by simp [weightedChoiceAux] at h
  | b :: pop, [], t, a, h => by
      simp only [weightedChoiceAux, Option.some.injEq] at h
      simp [h]
  | b :: pop, w :: ws, t, a, h => by
      by_cases hc : t < w
      · simp only [weightedChoiceAux, if_pos hc, Option.some.injEq] at h
        simp [h]
      · simp only [weightedChoiceAux, if_neg hc] at h
        exact List.mem_cons_of_mem _ (weightedChoiceAux_mem pop ws (t - w) a h)

/-- An adjacent transposition permutes the list. -/
theorem swapAdj_perm {α : Type} : ∀ (l : List α) (i : Nat), (swapAdj l i).Perm l
  | [], _ => List.Perm.refl _
  | [a], 0 => List.Perm.refl _
  | [a], i + 1 => List.Perm.refl _
  | a :: b :: t, 0 => List.Perm.swap a b t
  | a :: b :: t, i + 1 => List.Perm.cons a (swapAdj_perm (b :: t) i)

/-- Folding adjacent transpositions over any draw list permutes the list. -/
theorem foldl_swapAdj_perm (f : Nat → Nat) :
    ∀ (ks : List Nat) (g : List String),
      (ks.foldl (fun acc k => swapAdj acc (f k)) g).Perm g
  | [], g => List.Perm.refl g
  | k :: ks, g =>
      (foldl_swapAdj_perm f ks (swapAdj g (f k))).trans (swapAdj_perm g (f k))

/-- The swap loop permutes the grid, whatever the entropy. -/
theorem applySwaps_perm (n : Nat) (uIdx : Nat → ℚ) (s : Nat) (g : List String) :
    (applySwaps n uIdx s g).Perm g :=
  foldl_swapAdj_perm (fun k => pickSwapIndex n (uIdx k)) (List.range s) g

/-- Zero swaps leave the grid unchanged. -/
theorem applySwaps_zero (n : Nat) (uIdx : Nat → ℚ) (g : List String) :
    applySwaps n uIdx 0 g = g := by
  simp [applySwaps]

/-- The check phase never touches the grid. -/
theorem tickCheckPhase_grid (st : SimState) (nowM : Time) :
    (tickCheckPhase st nowM).1.grid = st.grid := by
  unfold tickCheckPhase
  split_ifs <;> rfl

/-- The apply phase permutes the grid. -/
theorem tickApplyPhase_perm (st : SimState) (now2 : Time) (e : TickEntropy) :
    ((tickApplyPhase st now2 e).grid).Perm st.grid := by
  by_cases h : st.grid.length < 2
  · simp only [tickApplyPhase, if_pos h]
    exact List.Perm.refl _
  · simp only [tickApplyPhase, if_neg h]
    exact applySwaps_perm _ _ _ _

/-- The chosen swap index stays at most n - 2 for valid entropy. -/
theorem pickSwapIndex_le (n : Nat) (u : ℚ) (hn : 2 ≤ n) (h0 : 0 ≤ u) (h1 : u < 1) :
    pickSwapIndex n u ≤ n - 2 := by
  unfold pickSwapIndex
  split
  · unfold randint
    have hn1 : n - 2 + 1 - 0 = n - 1 := by omega
    rw [hn1]
    have hpos : (0 : ℚ) < ((n - 1 : Nat) : ℚ) := by
      have h : 1 ≤ n - 1 := by omega
      exact_mod_cast Nat.lt_of_lt_of_le Nat.zero_lt_one h
    have hlt : u * ((n - 1 : Nat) : ℚ) < ((n - 1 : Nat) : ℚ) := by
      calc u * ((n - 1 : Nat) : ℚ) < 1 * ((n - 1 : Nat) : ℚ) :=
            mul_lt_mul_of_pos_right h1 hpos
        _ = ((n - 1 : Nat) : ℚ) := one_mul _
    have hfl : ⌊u * ((n - 1 : Nat) : ℚ)⌋ < ((n - 1 : Nat) : ℤ) := by
      rw [Int.floor_lt]
      exact_mod_cast hlt
    omega
  · exact min_le_right _ _

/-- The code-side candidate weight equals the spec-side candidate weight. -/
theorem idxWeight_eq_spec (n idx : Nat) : idxWeight n idx = specIdxWeight n idx := by
  simp only [idxWeight, specIdxWeight]
  have h1 : (2/10 : ℚ) = 1/5 := by norm_num
  have h2 : (15/10 : ℚ) = 3/2 := by norm_num
  rw [h1, h2]
  split <;> ring

/-- The code-side index selection equals the spec-side one: the final
`min(i, n - 2)` clamp of line 188 is a no-op because every candidate is
already at most n - 2. -/
theorem pickSwapIndex_eq_spec (n : Nat) (u : ℚ) (hn : 2 ≤ n) :
    pickSwapIndex n u = specPickIndex n u := by
  unfold pickSwapIndex specPickIndex
  split
  · rfl
  case isFalse h3 =>
    have hmap : idxWeight n = specIdxWeight n := funext (idxWeight_eq_spec n)
    rw [hmap]
    rcases hres : weightedChoice (List.range' 1 (n - 2))
        ((List.range' 1 (n - 2)).map (specIdxWeight n)) u with _ | a
    · simp only [hres, Option.getD_none]
      omega
    · have ha : a ∈ List.range' 1 (n - 2) :=
        weightedChoiceAux_mem _ _ _ a hres
      have hle : a ≤ n - 2 := by
        rw [List.mem_range'] at ha
        omega
      simp only [hres, Option.getD_some]
      omega

/-- The code-side swap-count draw equals the spec-side one: the literal
weights `[0.25, 0.55, 0.20]` are the spec weights. -/
theorem drawSwapCount_eq_spec (u : ℚ) : drawSwapCount u = specSwapCount u := by
  unfold drawSwapCount specSwapCount
  have h : swapWeights = [25/100, 55/100, 20/100] := by
    unfold swapWeights
    norm_num
  rw [h]

/-- The code-side swap loop equals the spec-side one once n ≥ 2. -/
theorem applySwaps_eq_spec (n : Nat) (uIdx : Nat → ℚ) (s : Nat) (g : List String)
    (hn : 2 ≤ n) : applySwaps n uIdx s g = specApplySwaps n uIdx s g := by
  unfold applySwaps specApplySwaps
  have h : (fun (acc : List String) k => swapAdj acc (pickSwapIndex n (uIdx k)))
      = fun acc k => swapAdj acc (specPickIndex n (uIdx k)) := by
    funext acc k
    rw [pickSwapIndex_eq_spec n (uIdx k) hn]
  rw [h]

/-- Evaluation of a tick that actually runs: on, baseline set, interval
elapsed, at least two entries. -/
theorem tick_run (st : SimState) (nowM now2 : Time) (e : TickEntropy)
    (hOn : st.simOn = true) (hBase : st.lastTickMonotonic ≠ 0)
    (hGe : TICK_SECONDS ≤ nowM - st.lastTickMonotonic) (hLen : 2 ≤ st.grid.length) :
    perform_lazy_tick_if_needed st nowM now2 e =
      { st with
        grid := applySwaps st.grid.length e.uIdx (drawSwapCount e.uSwaps) st.grid
        tickCount := st.tickCount + 1
        lastTickMonotonic := now2 } := by
  have h1 : ¬ (nowM - st.lastTickMonotonic < TICK_SECONDS) := not_lt.mpr hGe
  have h2 : ¬ (st.grid.length < 2) := not_lt.mpr hLen
  unfold perform_lazy_tick_if_needed tickCheckPhase tickApplyPhase
  simp [hOn, hBase, h1, h2]

/-- `ensure_grid_loaded` never shrinks a grid that already has 8 entries. -/
theorem ensure_keeps_ge8 (st : SimState) (force : Bool) (fetch : FetchResult)
    (iso : String) (h : 8 ≤ st.grid.length) :
    8 ≤ (ensure_grid_loaded st force fetch iso).1.grid.length := by
  unfold ensure_grid_loaded
  split
  · cases fetch with
    | error e => exact h
    | ok codes =>
      by_cases hc : codes.length < 8
      · simp only [if_pos hc]
        exact h
      · simp only [if_neg hc]
        omega
  · exact h

/-- `ensure_grid_loaded` touches only the grid and the load timestamp. -/
theorem ensure_preserves (st : SimState) (force : Bool) (fetch : FetchResult)
    (iso : String) :
    (ensure_grid_loaded st force fetch iso).1.simOn = st.simOn ∧
    (ensure_grid_loaded st force fetch iso).1.lastTickMonotonic = st.lastTickMonotonic ∧
    (ensure_grid_loaded st force fetch iso).1.tickCount = st.tickCount := by
  unfold ensure_grid_loaded
  split
  · cases fetch with
    | error e => simp
    | ok codes =>
      by_cases hc : codes.length < 8
      · simp [hc]
      · simp [hc]
  · simp

/-- A tick-eligible call with fewer than two grid entries returns the state
unchanged: the early return of lines 164-165 skips the counter increment and
the timestamp update. -/
theorem tick_small_noop (st : SimState) (nowM now2 : Time) (e : TickEntropy)
    (hOn : st.simOn = true) (hBase : st.lastTickMonotonic ≠ 0)
    (hGe : TICK_SECONDS ≤ nowM - st.lastTickMonotonic) (hSmall : st.grid.length < 2) :
    perform_lazy_tick_if_needed st nowM now2 e = st := by
  have h1 : ¬ (nowM - st.lastTickMonotonic < TICK_SECONDS) := not_lt.mpr hGe
  unfold perform_lazy_tick_if_needed tickCheckPhase tickApplyPhase
  simp [hOn, hBase, h1, hSmall]

/-- A successful `sim_start` turns the flag on and keeps the tick
bookkeeping of the pre-start state. -/
theorem sim_start_ok (st st1 : SimState) (fetch : FetchResult) (iso : String)
    (h : sim_start st fetch iso = (st1, none)) :
    st1.simOn = true ∧ st1.lastTickMonotonic = st.lastTickMonotonic ∧
    st1.tickCount = st.tickCount := by
  unfold sim_start at h
  rcases hE : ensure_grid_loaded st false fetch iso with ⟨st2, err⟩
  rw [hE] at h
  have hpres := ensure_preserves st false fetch iso
  rw [hE] at hpres
  cases err with
  | some e => simp at h
  | none =>
    simp only [Prod.mk.injEq] at h
    rw [← h.1]
    exact ⟨rfl, hpres.2.1, hpres.2.2⟩

/-- Candidate weights are strictly positive: the max with 0.2 keeps them
above zero even after the halving for idx ≤ 1. -/
theorem idxWeight_pos (n idx : Nat) : 0 < idxWeight n idx := by
  unfold idxWeight
  split
  · exact mul_pos (lt_max_iff.mpr (Or.inl (by norm_num))) (by norm_num)
  · exact lt_max_iff.mpr (Or.inl (by norm_num))

/-- With entropy 0 and a ten-entry grid the weighted choice lands on the
first candidate, index 1. -/
theorem pickSwapIndex_ten_zero : pickSwapIndex 10 0 = 1 := by
  have hcand : List.range' 1 (10 - 2) = 1 :: List.range' 2 7 := by decide
  have hpos := idxWeight_pos 10 1
  unfold pickSwapIndex
  rw [if_neg (by omega : ¬ (10 ≤ 3)), hcand]
  simp only [List.map_cons, weightedChoice, weightedChoiceAux, zero_mul, if_pos hpos,
    Option.getD_some]
  decide

/-- One swap with entropy 0 on the ten-entry grid exchanges positions 1
and 2. -/
theorem applySwaps_ten_one :
    applySwaps gridTen.length entropyOne.uIdx 1 gridTen =
      ["ALB", "GAS", "BOT", "HAM", "LEC", "NOR", "PER", "RUS", "SAI", "VER"] := by
  have hr : List.range 1 = [0] := by decide
  have hlen : gridTen.length = 10 := by decide
  simp only [applySwaps, hr, hlen, List.foldl_cons, List.foldl_nil, entropyOne,
    pickSwapIndex_ten_zero]
  decide

/-! ## Claim theorems -/

/-- Claim C1, counterexample: at a tick that is actually performed
(simulation on, baseline set, interval elapsed, ten-entry grid) the code
sets the last-tick timestamp to the second monotonic reading 12, not to the
value 10 that passed the interval check; and at a tick-eligible state with a
one-entry grid the tick counter is not incremented at all, although the
claim covers every tick with simulation on and the interval elapsed. -/
theorem C1_counterexample :
    stTick.simOn = true ∧ stTick.lastTickMonotonic ≠ 0 ∧
    TICK_SECONDS ≤ 10 - stTick.lastTickMonotonic ∧
    (perform_lazy_tick_if_needed stTick 10 12 entropy0).tickCount =
      stTick.tickCount + 1 ∧
    (perform_lazy_tick_if_needed stTick 10 12 entropy0).lastTickMonotonic = 12 ∧
    (12 : ℚ) ≠ 10 ∧
    stSolo.simOn = true ∧ stSolo.lastTickMonotonic ≠ 0 ∧
    TICK_SECONDS ≤ 10 - stSolo.lastTickMonotonic ∧
    (perform_lazy_tick_if_needed stSolo 10 12 entropy0).tickCount =
      stSolo.tickCount := by
  have h1 : perform_lazy_tick_if_needed stTick 10 12 entropy0 =
      { stTick with
        grid := applySwaps stTick.grid.length entropy0.uIdx
          (drawSwapCount entropy0.uSwaps) stTick.grid
        tickCount := stTick.tickCount + 1
        lastTickMonotonic := 12 } :=
    tick_run stTick 10 12 entropy0 rfl (by norm_num [stTick])
      (by norm_num [stTick, TICK_SECONDS]) (by decide)
  have h2 : perform_lazy_tick_if_needed stSolo 10 12 entropy0 = stSolo :=
    tick_small_noop stSolo 10 12 entropy0 rfl (by norm_num [stSolo])
      (by norm_num [stSolo, TICK_SECONDS]) (by decide)
  refine ⟨rfl, by norm_num [stTick], by norm_num [stTick, TICK_SECONDS],
    ?_, ?_, by norm_num, rfl, by norm_num [stSolo],
    by norm_num [stSolo, TICK_SECONDS], ?_⟩
  · rw [h1]
  · rw [h1]
  · rw [h2]

/-- Claim C1 (amended): for every tick actually performed (simulation on,
baseline set, interval elapsed, and grid length at least 2 — smaller grids
return untouched), the swap count is drawn from {0, 1, 2} with weights
{0.25, 0.55, 0.20}, each swap index is selected exactly as the spec words it
(uniform on [0, n-2] when n ≤ 3, else weighted by
max(0.2, 1.5 - dist/mid), halved for idx ≤ 1, over candidates [1, n-2];
the clamp of line 188 is a no-op), the tick counter is incremented by one,
and the last-tick timestamp is set to the second monotonic reading taken at
the end of the tick, not to the value that passed the interval check. -/
theorem C1_tick_algorithm (st : SimState) (nowM now2 : Time) (e : TickEntropy)
    (hOn : st.simOn = true) (hBase : st.lastTickMonotonic ≠ 0)
    (hGe : TICK_SECONDS ≤ nowM - st.lastTickMonotonic) (hLen : 2 ≤ st.grid.length) :
    perform_lazy_tick_if_needed st nowM now2 e =
      { st with
        grid := specApplySwaps st.grid.length e.uIdx (specSwapCount e.uSwaps) st.grid
        tickCount := st.tickCount + 1
        lastTickMonotonic := now2 } := by
  rw [tick_run st nowM now2 e hOn hBase hGe hLen, drawSwapCount_eq_spec,
    applySwaps_eq_spec st.grid.length e.uIdx _ st.grid hLen]

/-- Claim C1 witness: the amended theorem applied at a concrete tick. -/
theorem C1_tick_algorithm_witness :
    perform_lazy_tick_if_needed stTick 10 12 entropy0 =
      { stTick with
        grid := specApplySwaps stTick.grid.length entropy0.uIdx
          (specSwapCount entropy0.uSwaps) stTick.grid
        tickCount := stTick.tickCount + 1
        lastTickMonotonic := 12 } :=
  C1_tick_algorithm stTick 10 12 entropy0 rfl (by norm_num [stTick])
    (by norm_num [stTick, TICK_SECONDS]) (by decide)

/-- Claim C2: a reload attempt whose fetched list has fewer than 8 entries
fails with the insufficient-roster error and leaves the state unchanged;
consequently a grid with at least 8 entries never drops below 8 entries
under any sequence of reload attempts. -/
theorem C2_grid_floor :
    (∀ (st : SimState) (force : Bool) (codes : List String) (iso : String),
      (force = true ∨ st.grid.length < 8) → codes.length < 8 →
      ensure_grid_loaded st force (.ok codes) iso =
        (st, some "InsufficientRosterSize")) ∧
    (∀ (st : SimState) (attempts : List ReloadAttempt),
      8 ≤ st.grid.length → 8 ≤ (runReloads st attempts).grid.length) := by
  constructor
  · intro st force codes iso hneed hshort
    rcases hneed with h | h
    · subst h
      simp [ensure_grid_loaded, hshort]
    · simp [ensure_grid_loaded, h, hshort]
  · intro st attempts h
    induction attempts generalizing st with
    | nil => exact h
    | cons a rest ih => exact ih _ (ensure_keeps_ge8 st a.force a.fetch a.nowIso h)

/-- Claim C2 witness: a forced reload fetching three codes fails untouched,
and a failing-then-short reload sequence keeps the ten-entry grid. -/
theorem C2_grid_floor_witness :
    ensure_grid_loaded stRunning true (.ok shortCodes) "t" =
      (stRunning, some "InsufficientRosterSize") ∧
    8 ≤ (runReloads stRunning
      [⟨true, .error "down", "t"⟩, ⟨true, .ok shortCodes, "t"⟩]).grid.length :=
  ⟨C2_grid_floor.1 stRunning true shortCodes "t" (Or.inl rfl) (by decide),
   C2_grid_floor.2 stRunning _ (by decide)⟩

/-- Claim C3: with simulation on, a baseline recorded, and strictly less
than TICK_SECONDS elapsed since the last tick, the lazy-advance call
returns the state completely unchanged. -/
theorem C3_lazy_skip (st : SimState) (nowM now2 : Time) (e : TickEntropy)
    (hOn : st.simOn = true) (hBase : st.lastTickMonotonic ≠ 0)
    (hLt : nowM - st.lastTickMonotonic < TICK_SECONDS) :
    perform_lazy_tick_if_needed st nowM now2 e = st := by
  unfold perform_lazy_tick_if_needed tickCheckPhase
  simp [hOn, hBase, hLt]

/-- Claim C3 witness: a concrete skip at elapsed time 3 < 5. -/
theorem C3_lazy_skip_witness :
    perform_lazy_tick_if_needed stRunning 6 7 entropy0 = stRunning :=
  C3_lazy_skip stRunning 6 7 entropy0 rfl (by norm_num [stRunning])
    (by norm_num [stRunning, TICK_SECONDS])

/-- Claim C6, counterexample: a tick-eligible call on a one-entry grid
leaves the tick counter at 5 and the timestamp at 1, while the claim says
the counter is incremented and the timestamp updated. -/
theorem C6_counterexample :
    stSolo.simOn = true ∧ stSolo.lastTickMonotonic ≠ 0 ∧
    TICK_SECONDS ≤ 10 - stSolo.lastTickMonotonic ∧ stSolo.grid.length < 2 ∧
    (perform_lazy_tick_if_needed stSolo 10 11 entropy0).tickCount = 5 ∧
    (perform_lazy_tick_if_needed stSolo 10 11 entropy0).lastTickMonotonic = 1 := by
  have h := tick_small_noop stSolo 10 11 entropy0 rfl (by norm_num [stSolo])
    (by norm_num [stSolo, TICK_SECONDS]) (by decide)
  refine ⟨rfl, by norm_num [stSolo], by norm_num [stSolo, TICK_SECONDS],
    by decide, ?_, ?_⟩
  · rw [h]
    rfl
  · rw [h]
    rfl

/-- Claim C6 (amended): a tick-eligible call with grid length n < 2 returns
the state completely unchanged: zero swaps, and neither the tick counter nor
the last-tick timestamp is updated — the tick does not count as occurring. -/
theorem C6_small_grid_noop (st : SimState) (nowM now2 : Time) (e : TickEntropy)
    (hOn : st.simOn = true) (hBase : st.lastTickMonotonic ≠ 0)
    (hGe : TICK_SECONDS ≤ nowM - st.lastTickMonotonic) (hSmall : st.grid.length < 2) :
    perform_lazy_tick_if_needed st nowM now2 e = st :=
  tick_small_noop st nowM now2 e hOn hBase hGe hSmall

/-- Claim C6 witness: the amended theorem at the concrete one-entry state. -/
theorem C6_small_grid_noop_witness :
    perform_lazy_tick_if_needed stSolo 10 11 entropy0 = stSolo :=
  C6_small_grid_noop stSolo 10 11 entropy0 rfl (by norm_num [stSolo])
    (by norm_num [stSolo, TICK_SECONDS]) (by decide)

/-- Claim C4, counterexample: after stop() and then start() on a state with
prior ticks, start() hands back exactly the pre-stop state with the flag on
(the last-tick timestamp 3 is not cleared), so the first lazy-advance call
does not record a baseline: it performs a swap that changes the grid,
increments the counter, and sets the timestamp to the second clock reading
101 rather than the checked 100. -/
theorem C4_counterexample :
    sim_start (sim_stop stRunning) (.ok gridTen) "t" = (stRunning, none) ∧
    (perform_lazy_tick_if_needed stRunning 100 101 entropyOne).grid ≠ stRunning.grid ∧
    (perform_lazy_tick_if_needed stRunning 100 101 entropyOne).tickCount =
      stRunning.tickCount + 1 ∧
    (perform_lazy_tick_if_needed stRunning 100 101 entropyOne).lastTickMonotonic ≠ 100 := by
  have hdraw : drawSwapCount entropyOne.uSwaps = 1 := by
    norm_num [entropyOne, drawSwapCount, weightedChoice, weightedChoiceAux, swapWeights]
  have hrun := tick_run stRunning 100 101 entropyOne rfl (by norm_num [stRunning])
    (by norm_num [stRunning, TICK_SECONDS]) (by decide)
  rw [hdraw] at hrun
  have hg : stRunning.grid = gridTen := rfl
  rw [hg, applySwaps_ten_one] at hrun
  refine ⟨rfl, ?_, ?_, ?_⟩
  · rw [hrun]
    decide
  · rw [hrun]
  · rw [hrun]
    norm_num

/-- Claim C4 (amended): after a successful start() from a state whose
last-tick timestamp is still the 0.0 sentinel (process start, or right
after reset()), the first lazy-advance call records nowM as the baseline
and performs zero swaps, leaving the grid exactly as start() loaded it and
the counter untouched. start() itself never clears the timestamp, so after
a stop()/start() with prior ticks the first call may instead tick
immediately. -/
theorem C4_first_tick_baseline (st st1 : SimState) (fetch : FetchResult) (iso : String)
    (nowM now2 : Time) (e : TickEntropy)
    (hBase : st.lastTickMonotonic = 0)
    (hStart : sim_start st fetch iso = (st1, none)) :
    perform_lazy_tick_if_needed st1 nowM now2 e =
      { st1 with lastTickMonotonic := nowM } := by
  obtain ⟨hOn, hLast, -⟩ := sim_start_ok st st1 fetch iso hStart
  have hz : st1.lastTickMonotonic = 0 := hLast.trans hBase
  unfold perform_lazy_tick_if_needed tickCheckPhase
  simp [hOn, hz]

/-- Claim C4 witness: first tick after a fresh start records the baseline. -/
theorem C4_first_tick_baseline_witness :
    perform_lazy_tick_if_needed ⟨true, gridTen, 0, 0, some "t"⟩ 7 9 entropy0 =
      { (⟨true, gridTen, 0, 0, some "t"⟩ : SimState) with lastTickMonotonic := 7 } :=
  C4_first_tick_baseline stFresh ⟨true, gridTen, 0, 0, some "t"⟩ (.ok gridTen) "t"
    7 9 entropy0 rfl rfl

/-- Claim C5, counterexample: with a ten-entry grid already loaded and the
provider down, start() succeeds without any fetch: the failure does not
propagate, the flag turns on, and the tick bookkeeping (counter 2,
timestamp 3) is not reset — refuting both the forced-reload and the
bookkeeping-reset parts of the claim. -/
theorem C5_counterexample :
    8 ≤ (sim_stop stRunning).grid.length ∧
    sim_start (sim_stop stRunning) (.error "provider down") "t" = (stRunning, none) ∧
    stRunning.simOn = true ∧ stRunning.tickCount = 2 ∧
    stRunning.lastTickMonotonic = 3 :=
  ⟨by decide, rfl, rfl, rfl, rfl⟩

/-- Claim C5 (amended): start() only ensures the grid is loaded: with at
least 8 entries already present it fetches nothing and just sets the flag,
never touching the tick bookkeeping; a fetch only happens below 8 entries,
and then a provider failure or a short roster propagates with the state
unchanged, while a sufficient roster is installed and the flag set. -/
theorem C5_start_semantics :
    (∀ (st : SimState) (fetch : FetchResult) (iso : String), 8 ≤ st.grid.length →
      sim_start st fetch iso = ({ st with simOn := true }, none)) ∧
    (∀ (st : SimState) (msg iso : String), st.grid.length < 8 →
      sim_start st (.error msg) iso = (st, some msg)) ∧
    (∀ (st : SimState) (codes : List String) (iso : String),
      st.grid.length < 8 → codes.length < 8 →
      sim_start st (.ok codes) iso = (st, some "InsufficientRosterSize")) ∧
    (∀ (st : SimState) (codes : List String) (iso : String),
      st.grid.length < 8 → 8 ≤ codes.length →
      sim_start st (.ok codes) iso =
        ({ st with grid := codes, lastGridLoadedAtUtc := some iso, simOn := true },
          none)) := by
  refine ⟨?_, ?_, ?_, ?_⟩
  · intro st fetch iso h
    have hn : ¬ (st.grid.length < 8) := not_lt.mpr h
    simp [sim_start, ensure_grid_loaded, hn]
  · intro st msg iso h
    simp [sim_start, ensure_grid_loaded, h]
  · intro st codes iso h hc
    simp [sim_start, ensure_grid_loaded, h, hc]
  · intro st codes iso h hc
    have hn : ¬ (codes.length < 8) := not_lt.mpr hc
    simp [sim_start, ensure_grid_loaded, h, hn]

/-- Claim C5 witness: the amended theorem at concrete states. -/
theorem C5_start_semantics_witness :
    sim_start stRunning (.error "down") "t" = ({ stRunning with simOn := true }, none) ∧
    sim_start stFresh (.error "down") "t" = (stFresh, some "down") ∧
    sim_start stFresh (.ok shortCodes) "t" = (stFresh, some "InsufficientRosterSize") ∧
    sim_start stFresh (.ok gridTen) "t" =
      ({ stFresh with grid := gridTen, lastGridLoadedAtUtc := some "t", simOn := true },
        none) :=
  ⟨C5_start_semantics.1 stRunning (.error "down") "t" (by decide),
   C5_start_semantics.2.1 stFresh "down" "t" (by decide),
   C5_start_semantics.2.2.1 stFresh shortCodes "t" (by decide) (by decide),
   C5_start_semantics.2.2.2 stFresh gridTen "t" (by decide) (by decide)⟩

/-- Claim C7: reset() always consults the fetch (force_reload=True); a
provider failure or a short roster propagates with every field unchanged;
on success the grid is replaced, the tick counter becomes 0, the last-tick
timestamp becomes the 0.0 sentinel, and the flag is untouched in all
cases. -/
theorem C7_reset_semantics :
    (∀ (st : SimState) (msg iso : String),
      sim_reset st (.error msg) iso = (st, some msg)) ∧
    (∀ (st : SimState) (codes : List String) (iso : String), codes.length < 8 →
      sim_reset st (.ok codes) iso = (st, some "InsufficientRosterSize")) ∧
    (∀ (st : SimState) (codes : List String) (iso : String), 8 ≤ codes.length →
      sim_reset st (.ok codes) iso =
        ({ st with
            grid := codes
            lastGridLoadedAtUtc := some iso
            tickCount := 0
            lastTickMonotonic := 0 }, none)) := by
  refine ⟨?_, ?_, ?_⟩
  · intro st msg iso
    simp [sim_reset, ensure_grid_loaded]
  · intro st codes iso h
    simp [sim_reset, ensure_grid_loaded, h]
  · intro st codes iso h
    have hn : ¬ (codes.length < 8) := not_lt.mpr h
    simp [sim_reset, ensure_grid_loaded, hn]

/-- Claim C7 witness: the three reset outcomes at concrete inputs. -/
theorem C7_reset_semantics_witness :
    sim_reset stRunning (.error "down") "t" = (stRunning, some "down") ∧
    sim_reset stRunning (.ok shortCodes) "t" =
      (stRunning, some "InsufficientRosterSize") ∧
    sim_reset stRunning (.ok gridTen) "t" =
      ({ stRunning with
          grid := gridTen
          lastGridLoadedAtUtc := some "t"
          tickCount := 0
          lastTickMonotonic := 0 }, none) :=
  ⟨C7_reset_semantics.1 stRunning "down" "t",
   C7_reset_semantics.2.1 stRunning shortCodes "t" (by decide),
   C7_reset_semantics.2.2 stRunning gridTen "t" (by decide)⟩

/-- Claim C8: the exactly-one-tick guarantee fails on the code: the lock is
released between the interval check (first locked section) and the apply
phase (second locked section), so the interleaving A-check, B-check,
A-apply, B-apply of two tick-eligible reads lets both invocations pass the
check from the same state and both perform a tick — the counter advances by
two, where the claim requires exactly one tick. -/
theorem C8_race_both_tick :
    tickCheckPhase stTick 10 = (stTick, true) ∧
    (tickApplyPhase (tickApplyPhase stTick 10 entropy0) 10 entropy0).tickCount =
      stTick.tickCount + 2 := by
  have hdraw : drawSwapCount entropy0.uSwaps = 0 := by
    norm_num [entropy0, drawSwapCount, weightedChoice, weightedChoiceAux, swapWeights]
  have happly : ∀ st2 : SimState, 2 ≤ st2.grid.length →
      tickApplyPhase st2 10 entropy0 =
        { st2 with
          grid := st2.grid
          tickCount := st2.tickCount + 1
          lastTickMonotonic := 10 } := by
    intro st2 h
    have hn : ¬ (st2.grid.length < 2) := not_lt.mpr h
    simp [tickApplyPhase, hdraw, hn, applySwaps_zero]
  constructor
  · norm_num [tickCheckPhase, stTick, TICK_SECONDS]
  · rw [happly stTick (by decide), happly _ (by decide)]

/-- Claim C9, counterexample: with the secret "secret" configured and the
credential header present but empty, the code returns 401, while the claim
(absent header → 401, otherwise mismatched token → 403) prescribes 403. -/
theorem C9_counterexample :
    ("secret" : String) ≠ "" ∧ some "" ≠ (none : Option String) ∧
    ("" : String) ≠ "secret" ∧
    require_admin_token "secret" (some "") = some 401 :=
  ⟨by decide, by simp, by decide, rfl⟩

/-- Claim C9 (amended): no configured secret → 500 whatever the header; an
absent or empty header → 401 (Python truthiness treats an empty header like
a missing one); a nonempty token different from the secret → 403; the
matching token passes. -/
theorem C9_admin_check :
    (∀ x : Option String, require_admin_token "" x = some 500) ∧
    (∀ secret : String, secret ≠ "" → require_admin_token secret none = some 401) ∧
    (∀ secret : String, secret ≠ "" →
      require_admin_token secret (some "") = some 401) ∧
    (∀ secret t : String, secret ≠ "" → t ≠ "" → t ≠ secret →
      require_admin_token secret (some t) = some 403) ∧
    (∀ secret : String, secret ≠ "" →
      require_admin_token secret (some secret) = none) := by
  refine ⟨?_, ?_, ?_, ?_, ?_⟩ <;> intros <;> simp_all [require_admin_token, strFalsy]

/-- Claim C9 witness: the amended theorem at concrete credentials. -/
theorem C9_admin_check_witness :
    require_admin_token "" (some "tok") = some 500 ∧
    require_admin_token "secret" none = some 401 ∧
    require_admin_token "secret" (some "") = some 401 ∧
    require_admin_token "secret" (some "wrong") = some 403 ∧
    require_admin_token "secret" (some "secret") = none :=
  ⟨C9_admin_check.1 (some "tok"),
   C9_admin_check.2.1 "secret" (by decide),
   C9_admin_check.2.2.1 "secret" (by decide),
   C9_admin_check.2.2.2.1 "secret" "wrong" (by decide) (by decide) (by decide),
   C9_admin_check.2.2.2.2 "secret" (by decide)⟩

/-- Claim C10: every lazy-advance call leaves the grid a permutation of
what it was — same length, same multiset of identifiers — and with valid
entropy every chosen swap index i satisfies i + 1 < n, so both accesses of
the transposition are in bounds. -/
theorem C10_tick_is_permutation (st : SimState) (nowM now2 : Time) (e : TickEntropy) :
    ((perform_lazy_tick_if_needed st nowM now2 e).grid).Perm st.grid ∧
    (perform_lazy_tick_if_needed st nowM now2 e).grid.length = st.grid.length ∧
    (∀ u : ℚ, 0 ≤ u → u < 1 → 2 ≤ st.grid.length →
      pickSwapIndex st.grid.length u + 1 < st.grid.length) := by
  have hperm : ((perform_lazy_tick_if_needed st nowM now2 e).grid).Perm st.grid := by
    simp only [perform_lazy_tick_if_needed]
    by_cases h : (tickCheckPhase st nowM).2 = true
    · rw [if_pos h]
      have hp := tickApplyPhase_perm (tickCheckPhase st nowM).1 now2 e
      rw [tickCheckPhase_grid] at hp
      exact hp
    · rw [if_neg h, tickCheckPhase_grid]
  refine ⟨hperm, hperm.length_eq, ?_⟩
  intro u h0 h1 h2
  have hle := pickSwapIndex_le st.grid.length u h2 h0 h1
  omega

/-- Claim C10 witness: permutation, length preservation, and the index
bound at a concrete tick on the ten-entry grid. -/
theorem C10_tick_is_permutation_witness :
    ((perform_lazy_tick_if_needed stRunning 100 101 entropyOne).grid).Perm
      stRunning.grid ∧
    (perform_lazy_tick_if_needed stRunning 100 101 entropyOne).grid.length =
      stRunning.grid.length ∧
    pickSwapIndex stRunning.grid.length (1/2) + 1 < stRunning.grid.length := by
  obtain ⟨hp, hl, hb⟩ := C10_tick_is_permutation stRunning 100 101 entropyOne
  exact ⟨hp, hl, hb (1/2) (by norm_num) (by norm_num) (by decide)⟩

end FastF1Sim
